import Mathlib

/-!
Shallow embedding of the negotiation core of
drivers/media/platform/st/stm32/stm32-dcmipp/dcmipp-pixelproc.c
(STM32 DCMIPP pixel-processor subdevice).

The embedding models the per-pipe negotiation state
(struct dcmipp_pixelproc_device plus the v4l2 subdev TRY state) and the
operations the design document talks about: set_fmt, set_selection,
s_frame_interval, s_stream and the downscale planner inside
dcmipp_pixelproc_set_downscale.  Machine integers of the driver are u32;
every value handled here stays far below 2^32, and all arithmetic in the
modelled paths is on small non-negative quantities, so Nat (and Int for
the signed rectangle offsets) is used with the same truncating division
semantics as C unsigned arithmetic.
-/

set_option maxHeartbeats 1000000

/-- Media-bus format codes used by the driver, with the numeric values of
include/uapi/linux/media-bus-format.h (external uapi header, not part of
the repository under verification). -/
def MEDIA_BUS_FMT_RGB565_2X8_LE : Nat := 0x1008

def MEDIA_BUS_FMT_RGB888_1X24 : Nat := 0x100a

def MEDIA_BUS_FMT_BGR888_1X24 : Nat := 0x1013

def MEDIA_BUS_FMT_Y8_1X8 : Nat := 0x2001

def MEDIA_BUS_FMT_UYVY8_1_5X8 : Nat := 0x2002

def MEDIA_BUS_FMT_VYUY8_1_5X8 : Nat := 0x2003

def MEDIA_BUS_FMT_YUYV8_1_5X8 : Nat := 0x2004

def MEDIA_BUS_FMT_YVYU8_1_5X8 : Nat := 0x2005

def MEDIA_BUS_FMT_UYVY8_2X8 : Nat := 0x2006

def MEDIA_BUS_FMT_VYUY8_2X8 : Nat := 0x2007

def MEDIA_BUS_FMT_YUYV8_2X8 : Nat := 0x2008

def MEDIA_BUS_FMT_YVYU8_2X8 : Nat := 0x2009

def MEDIA_BUS_FMT_YUYV8_1X16 : Nat := 0x2011

def MEDIA_BUS_FMT_YVYU8_1X16 : Nat := 0x2012

def MEDIA_BUS_FMT_YUV8_1X24 : Nat := 0x2025

def MEDIA_BUS_FMT_SBGGR8_1X8 : Nat := 0x3001

/-- v4l2 field-order constants (uapi videodev2.h). -/
def V4L2_FIELD_ANY : Nat := 0

def V4L2_FIELD_NONE : Nat := 1

def V4L2_FIELD_ALTERNATE : Nat := 7

/-- v4l2 colorspace constant (uapi videodev2.h). -/
def V4L2_COLORSPACE_REC709 : Nat := 3

/-- Error numbers used by the driver (returned negated, as in the kernel). -/
def EINVAL : Int := 22

def EBUSY : Int := 16

/-- Packer format codes DCMIPP_PxPPCR_FORMAT_* of dcmipp-pixelproc.c. -/
def DCMIPP_PxPPCR_FORMAT_RGB888_OR_YUV444_1BUFFER : Nat := 0x0

def DCMIPP_PxPPCR_FORMAT_RGB565 : Nat := 0x1

def DCMIPP_PxPPCR_FORMAT_Y8 : Nat := 0x4

def DCMIPP_PxPPCR_FORMAT_YUYV : Nat := 0x6

def DCMIPP_P1PPCR_FORMAT_NV61 : Nat := 0x7

def DCMIPP_P1PPCR_FORMAT_NV21 : Nat := 0x8

def DCMIPP_P1PPCR_FORMAT_YV12 : Nat := 0x9

def DCMIPP_PxPPCR_FORMAT_UYVY : Nat := 0xa

/-- Modelled from the spec: DCMIPP_FRAME_MIN_WIDTH / _MIN_HEIGHT and the
matching maxima live in dcmipp-common.h, which is not part of the tree
under src/.  The design document states a 16x16 minimum; the maxima are
the DCMIPP hardware frame limits (4096x2160).  No claim below depends on
the exact maxima, only on min being 16 and max being at least 640x480. -/
def DCMIPP_FRAME_MIN_WIDTH : Nat := 16

def DCMIPP_FRAME_MIN_HEIGHT : Nat := 16

def DCMIPP_FRAME_MAX_WIDTH : Nat := 4096

def DCMIPP_FRAME_MAX_HEIGHT : Nat := 2160

/-- Default sizes (dcmipp-pixelproc.c lines 28-29). -/
def DCMIPP_FMT_WIDTH_DEFAULT : Nat := 640

def DCMIPP_FMT_HEIGHT_DEFAULT : Nat := 480

/-- Pad-specific default media-bus codes (lines 128-129). -/
def PIXELPROC_MEDIA_BUS_SRC_FMT_DEFAULT : Nat := MEDIA_BUS_FMT_RGB565_2X8_LE

def PIXELPROC_MEDIA_BUS_SINK_FMT_DEFAULT : Nat := MEDIA_BUS_FMT_RGB888_1X24

/-- v4l2 selection target constants (uapi v4l2-common.h). -/
def V4L2_SEL_TGT_CROP : Nat := 0x0

def V4L2_SEL_TGT_CROP_DEFAULT : Nat := 0x1

def V4L2_SEL_TGT_CROP_BOUNDS : Nat := 0x2

def V4L2_SEL_TGT_COMPOSE : Nat := 0x100

/-- struct v4l2_mbus_framefmt: the fields the driver reads or writes.
width and height are u32, code and field and the colorimetry fields are
enum-valued. -/
structure v4l2_mbus_framefmt where
  width : Nat
  height : Nat
  code : Nat
  field : Nat
  colorspace : Nat
  ycbcr_enc : Nat
  quantization : Nat
  xfer_func : Nat
deriving DecidableEq, Repr

/-- struct v4l2_rect: left and top are s32, width and height are u32. -/
structure v4l2_rect where
  left : Int
  top : Int
  width : Nat
  height : Nat
deriving DecidableEq, Repr

/-- struct v4l2_fract: numerator and denominator are u32. -/
structure v4l2_fract where
  numerator : Nat
  denominator : Nat
deriving DecidableEq, Repr

/-- struct dcmipp_pixelproc_pix_map (lines 131-135). -/
structure dcmipp_pixelproc_pix_map where
  code : Nat
  ppcr_fmt : Nat
  swap_uv : Nat
deriving DecidableEq, Repr

/-- dcmipp_pixelproc_sink_pix_map_list (lines 143-146). -/
def dcmipp_pixelproc_sink_pix_map_list : List dcmipp_pixelproc_pix_map :=
  [⟨MEDIA_BUS_FMT_RGB888_1X24, 0, 0⟩,
   ⟨MEDIA_BUS_FMT_YUV8_1X24, 0, 0⟩]

/-- dcmipp_pixelproc_src_pix_map_list (lines 148-163).  Several logical
codes intentionally alias onto one packer code with distinct swap flags. -/
def dcmipp_pixelproc_src_pix_map_list : List dcmipp_pixelproc_pix_map :=
  [⟨MEDIA_BUS_FMT_RGB888_1X24, DCMIPP_PxPPCR_FORMAT_RGB888_OR_YUV444_1BUFFER, 1⟩,
   ⟨MEDIA_BUS_FMT_BGR888_1X24, DCMIPP_PxPPCR_FORMAT_RGB888_OR_YUV444_1BUFFER, 0⟩,
   ⟨MEDIA_BUS_FMT_RGB565_2X8_LE, DCMIPP_PxPPCR_FORMAT_RGB565, 0⟩,
   ⟨MEDIA_BUS_FMT_YUYV8_2X8, DCMIPP_PxPPCR_FORMAT_YUYV, 0⟩,
   ⟨MEDIA_BUS_FMT_YVYU8_2X8, DCMIPP_PxPPCR_FORMAT_YUYV, 1⟩,
   ⟨MEDIA_BUS_FMT_UYVY8_2X8, DCMIPP_PxPPCR_FORMAT_UYVY, 0⟩,
   ⟨MEDIA_BUS_FMT_VYUY8_2X8, DCMIPP_PxPPCR_FORMAT_UYVY, 1⟩,
   ⟨MEDIA_BUS_FMT_Y8_1X8, DCMIPP_PxPPCR_FORMAT_Y8, 0⟩,
   ⟨MEDIA_BUS_FMT_YUYV8_1_5X8, DCMIPP_P1PPCR_FORMAT_NV21, 0⟩,
   ⟨MEDIA_BUS_FMT_YVYU8_1_5X8, DCMIPP_P1PPCR_FORMAT_NV21, 1⟩,
   ⟨MEDIA_BUS_FMT_YUYV8_1X16, DCMIPP_P1PPCR_FORMAT_NV61, 0⟩,
   ⟨MEDIA_BUS_FMT_YVYU8_1X16, DCMIPP_P1PPCR_FORMAT_NV61, 1⟩,
   ⟨MEDIA_BUS_FMT_UYVY8_1_5X8, DCMIPP_P1PPCR_FORMAT_YV12, 0⟩,
   ⟨MEDIA_BUS_FMT_VYUY8_1_5X8, DCMIPP_P1PPCR_FORMAT_YV12, 1⟩]

/-- dcmipp_pixelproc_pix_map_by_code (lines 185-206).  pad 0 is the sink
pad, any other pad value is the source pad, mirroring IS_SRC(pad). -/
def dcmipp_pixelproc_pix_map_by_code (code : Nat) (pad : Nat) :
    Option dcmipp_pixelproc_pix_map :=
  (if pad ≠ 0 then dcmipp_pixelproc_src_pix_map_list
   else dcmipp_pixelproc_sink_pix_map_list).find? (fun m => m.code == code)

/-- dcmipp_pixelproc_pix_map_by_index (lines 165-183). -/
def dcmipp_pixelproc_pix_map_by_index (i : Nat) (pad : Nat) :
    Option dcmipp_pixelproc_pix_map :=
  (if pad ≠ 0 then dcmipp_pixelproc_src_pix_map_list
   else dcmipp_pixelproc_sink_pix_map_list).get? i

/-- kernel clamp_t on u32 (linux/minmax.h): min(max(val, lo), hi). -/
def clamp_t (v lo hi : Nat) : Nat := min (max v lo) hi

/-- v4l2_rect_set_min_size (media/v4l2-rect.h): grow width and height up
to the given minimum. -/
def v4l2_rect_set_min_size (r m : v4l2_rect) : v4l2_rect :=
  { r with
    width := if r.width < m.width then m.width else r.width
    height := if r.height < m.height then m.height else r.height }

/-- v4l2_rect_set_max_size (media/v4l2-rect.h). -/
def v4l2_rect_set_max_size (r m : v4l2_rect) : v4l2_rect :=
  { r with
    width := if r.width > m.width then m.width else r.width
    height := if r.height > m.height then m.height else r.height }

/-- v4l2_rect_map_inside (media/v4l2-rect.h): cap the size, then translate
the rectangle so it lies inside the boundary.  The driver only ever calls
this with boundary left = top = 0, for which the Int reading below agrees
with the C comparisons. -/
def v4l2_rect_map_inside (r0 boundary : v4l2_rect) : v4l2_rect :=
  let r := v4l2_rect_set_max_size r0 boundary
  let l1 := if r.left < boundary.left then boundary.left else r.left
  let t1 := if r.top < boundary.top then boundary.top else r.top
  let l2 := if l1 + (r.width : Int) > boundary.left + (boundary.width : Int) then
              boundary.left + (boundary.width : Int) - (r.width : Int)
            else l1
  let t2 := if t1 + (r.height : Int) > boundary.top + (boundary.height : Int) then
              boundary.top + (boundary.height : Int) - (r.height : Int)
            else t1
  { r with left := l2, top := t2 }

/-- crop_min (lines 242-247): a 16x16 rectangle at the origin. -/
def crop_min : v4l2_rect :=
  { left := 0, top := 0,
    width := DCMIPP_FRAME_MIN_WIDTH, height := DCMIPP_FRAME_MIN_HEIGHT }

/-- dcmipp_pixelproc_get_crop_bound (lines 301-312): the full-frame
rectangle of a format. -/
def dcmipp_pixelproc_get_crop_bound (fmt : v4l2_mbus_framefmt) : v4l2_rect :=
  { left := 0, top := 0, width := fmt.width, height := fmt.height }

/-- dcmipp_pixelproc_adjust_crop (lines 314-323). -/
def dcmipp_pixelproc_adjust_crop (r : v4l2_rect) (fmt : v4l2_mbus_framefmt) :
    v4l2_rect :=
  let src_rect := dcmipp_pixelproc_get_crop_bound fmt
  v4l2_rect_map_inside (v4l2_rect_set_min_size r crop_min) src_rect

/-- Modelled from the spec: dcmipp_colorimetry_clamp is defined in
dcmipp-common.h, which is absent from src/.  The design document only says
the colorimetry is clamped by the external color-space rules; no claim
below depends on its behaviour, so the model leaves the colorimetry
fields unchanged. -/
def dcmipp_colorimetry_clamp (fmt : v4l2_mbus_framefmt) : v4l2_mbus_framefmt :=
  fmt

/-- dcmipp_pixelproc_adjust_fmt (lines 325-344). -/
def dcmipp_pixelproc_adjust_fmt (f : v4l2_mbus_framefmt) (pad : Nat) :
    v4l2_mbus_framefmt :=
  let code :=
    match dcmipp_pixelproc_pix_map_by_code f.code pad with
    | none => if pad ≠ 0 then PIXELPROC_MEDIA_BUS_SRC_FMT_DEFAULT
              else PIXELPROC_MEDIA_BUS_SINK_FMT_DEFAULT
    | some _ => f.code
  let width := clamp_t f.width DCMIPP_FRAME_MIN_WIDTH DCMIPP_FRAME_MAX_WIDTH
  let height := clamp_t f.height DCMIPP_FRAME_MIN_HEIGHT DCMIPP_FRAME_MAX_HEIGHT
  let fld := if f.field = V4L2_FIELD_ANY ∨ f.field = V4L2_FIELD_ALTERNATE then
               V4L2_FIELD_NONE
             else f.field
  dcmipp_colorimetry_clamp
    { f with code := code, width := width, height := height, field := fld }

/-- The which selector of the v4l2 subdev API: active is
V4L2_SUBDEV_FORMAT_ACTIVE (the committed state), proposed is
V4L2_SUBDEV_FORMAT_TRY (the scratch copy held in the subdev state). -/
inductive Which where
  | active : Which
  | proposed : Which
deriving DecidableEq, Repr

/-- The negotiation state of one pipe: struct dcmipp_pixelproc_device
(lines 208-229, negotiation fields only; the unused src_code field and
the external handles are omitted), together with the v4l2 subdev TRY
state (try format per pad, try crop and try compose) that the TRY paths
of the operations read and write. -/
structure dcmipp_pixelproc_device where
  sink_fmt : v4l2_mbus_framefmt
  src_fmt : v4l2_mbus_framefmt
  streaming : Bool
  pipe_id : Nat
  src_interval : v4l2_fract
  sink_interval : v4l2_fract
  frate : Nat
  crop : v4l2_rect
  compose : v4l2_rect
  try_sink_fmt : v4l2_mbus_framefmt
  try_src_fmt : v4l2_mbus_framefmt
  try_crop : v4l2_rect
  try_compose : v4l2_rect
deriving DecidableEq, Repr

/-- fmt_default (lines 231-240). -/
def fmt_default : v4l2_mbus_framefmt :=
  { width := DCMIPP_FMT_WIDTH_DEFAULT
    height := DCMIPP_FMT_HEIGHT_DEFAULT
    code := PIXELPROC_MEDIA_BUS_SINK_FMT_DEFAULT
    field := V4L2_FIELD_NONE
    colorspace := V4L2_COLORSPACE_REC709
    ycbcr_enc := 0
    quantization := 0
    xfer_func := 0 }

/-- The pipe state right after dcmipp_pixelproc_ent_init (lines 924-1006)
and dcmipp_pixelproc_init_cfg (lines 346-361): kzalloc zeroes streaming
and frate, formats and rectangles get the 640x480 defaults, both
intervals are 1/30.  The TRY rectangles are zero-initialized by the v4l2
core. -/
def dcmipp_pixelproc_init (pipe : Nat) : dcmipp_pixelproc_device :=
  { sink_fmt := fmt_default
    src_fmt := { fmt_default with code := PIXELPROC_MEDIA_BUS_SRC_FMT_DEFAULT }
    streaming := false
    pipe_id := pipe
    src_interval := ⟨1, 30⟩
    sink_interval := ⟨1, 30⟩
    frate := 0
    crop := ⟨0, 0, DCMIPP_FMT_WIDTH_DEFAULT, DCMIPP_FMT_HEIGHT_DEFAULT⟩
    compose := ⟨0, 0, DCMIPP_FMT_WIDTH_DEFAULT, DCMIPP_FMT_HEIGHT_DEFAULT⟩
    try_sink_fmt := fmt_default
    try_src_fmt := { fmt_default with code := PIXELPROC_MEDIA_BUS_SRC_FMT_DEFAULT }
    try_crop := ⟨0, 0, 0, 0⟩
    try_compose := ⟨0, 0, 0, 0⟩ }

/-- The sink format selected by which (active vs TRY). -/
def sinkFmtOf (s : dcmipp_pixelproc_device) : Which → v4l2_mbus_framefmt
  | Which.active => s.sink_fmt
  | Which.proposed => s.try_sink_fmt

/-- The source format selected by which (active vs TRY). -/
def srcFmtOf (s : dcmipp_pixelproc_device) : Which → v4l2_mbus_framefmt
  | Which.active => s.src_fmt
  | Which.proposed => s.try_src_fmt

/-- The crop rectangle selected by which (active vs TRY). -/
def cropOf (s : dcmipp_pixelproc_device) : Which → v4l2_rect
  | Which.active => s.crop
  | Which.proposed => s.try_crop

/-- The compose rectangle selected by which (active vs TRY). -/
def composeOf (s : dcmipp_pixelproc_device) : Which → v4l2_rect
  | Which.active => s.compose
  | Which.proposed => s.try_compose

/-- Store into the crop rectangle selected by which. -/
def setCropOf (s : dcmipp_pixelproc_device) (w : Which) (r : v4l2_rect) :
    dcmipp_pixelproc_device :=
  match w with
  | Which.active => { s with crop := r }
  | Which.proposed => { s with try_crop := r }

/-- Store into the compose rectangle selected by which. -/
def setComposeOf (s : dcmipp_pixelproc_device) (w : Which) (r : v4l2_rect) :
    dcmipp_pixelproc_device :=
  match w with
  | Which.active => { s with compose := r }
  | Which.proposed => { s with try_compose := r }

/-- Store into the sink format selected by which. -/
def setSinkFmtOf (s : dcmipp_pixelproc_device) (w : Which)
    (f : v4l2_mbus_framefmt) : dcmipp_pixelproc_device :=
  match w with
  | Which.active => { s with sink_fmt := f }
  | Which.proposed => { s with try_sink_fmt := f }

/-- Store into the source format selected by which. -/
def setSrcFmtOf (s : dcmipp_pixelproc_device) (w : Which)
    (f : v4l2_mbus_framefmt) : dcmipp_pixelproc_device :=
  match w with
  | Which.active => { s with src_fmt := f }
  | Which.proposed => { s with try_src_fmt := f }

/-- Overwrite width and height of the source format selected by which
(the tail of dcmipp_pixelproc_set_selection, lines 604-606). -/
def setSrcSizeOf (s : dcmipp_pixelproc_device) (w : Which) (wd ht : Nat) :
    dcmipp_pixelproc_device :=
  setSrcFmtOf s w { srcFmtOf s w with width := wd, height := ht }

/-- dcmipp_pixelproc_set_fmt (lines 422-505).  Returns the negated errno,
the new state and the adjusted format written back into the callers
buffer.  pad 0 is the sink pad (IS_SINK), any other value the source
pad.  Streaming blocks only which = active; setting the sink format
propagates to the source format of the same which, forcing its code; a
sink set with which = active additionally resets crop and compose to the
full frame of the new format. -/
def dcmipp_pixelproc_set_fmt (s : dcmipp_pixelproc_device) (which : Which)
    (pad : Nat) (f0 : v4l2_mbus_framefmt) :
    Int × dcmipp_pixelproc_device × v4l2_mbus_framefmt :=
  if which = Which.active ∧ s.streaming = true then
    (-EBUSY, s, f0)
  else
    let f := dcmipp_pixelproc_adjust_fmt f0 pad
    let s1 :=
      if pad = 0 then
        let src_code :=
          if MEDIA_BUS_FMT_Y8_1X8 ≤ f.code ∧ f.code < MEDIA_BUS_FMT_SBGGR8_1X8 then
            MEDIA_BUS_FMT_YUYV8_2X8
          else
            MEDIA_BUS_FMT_RGB565_2X8_LE
        setSrcFmtOf s which { f with code := src_code }
      else s
    let s2 := if pad = 0 then setSinkFmtOf s1 which f else setSrcFmtOf s1 which f
    let s3 :=
      if pad = 0 ∧ which = Which.active then
        { s2 with
          crop := ⟨0, 0, f.width, f.height⟩
          compose := ⟨0, 0, f.width, f.height⟩ }
      else s2
    (0, s3, f)

/-- The compose clamp of the V4L2_SEL_TGT_COMPOSE branch of
dcmipp_pixelproc_set_selection (lines 582-594): clamp each dimension down
to the crop size, else (if strictly below crop / 64, truncating division
by DCMIPP_MAX_DOWNSCALE_RATIO = 64) up to crop / 64; left and top are
forced to 0. -/
def dcmipp_pixelproc_clamp_compose (cropv r : v4l2_rect) : v4l2_rect :=
  let w := if r.width > cropv.width then cropv.width
           else if r.width < cropv.width / 64 then cropv.width / 64
           else r.width
  let h := if r.height > cropv.height then cropv.height
           else if r.height < cropv.height / 64 then cropv.height / 64
           else r.height
  { left := 0, top := 0, width := w, height := h }

/-- dcmipp_pixelproc_set_selection (lines 546-609).  Returns the negated
errno, the new state and the rectangle written back to the caller.  Note
the function checks the pad and the target but never the streaming
flag. -/
def dcmipp_pixelproc_set_selection (s : dcmipp_pixelproc_device)
    (which : Which) (pad target : Nat) (r0 : v4l2_rect) :
    Int × dcmipp_pixelproc_device × v4l2_rect :=
  if pad ≠ 0 then
    (-EINVAL, s, r0)
  else if target = V4L2_SEL_TGT_CROP then
    let r := dcmipp_pixelproc_adjust_crop r0 (sinkFmtOf s which)
    let s1 := setCropOf s which r
    let s2 := setComposeOf s1 which r
    (0, setSrcSizeOf s2 which r.width r.height, r)
  else if target = V4L2_SEL_TGT_COMPOSE then
    let r := dcmipp_pixelproc_clamp_compose (cropOf s which) r0
    let s1 := setComposeOf s which r
    (0, setSrcSizeOf s1 which r.width r.height, r)
  else
    (-EINVAL, s, r0)

/-- dcmipp_frates (line 611): the frame-skip rate table. -/
def dcmipp_frates : List Nat := [1, 2, 4, 8]

/-- dcmipp_pixelproc_s_frame_interval (lines 779-829).  Returns the
negated errno, the new state and the interval written back to the caller
(the zero-check overwrites the callers buffer before branching).  The
frate index is always in [0, 3], so the getD default is never used. -/
def dcmipp_pixelproc_s_frame_interval (s : dcmipp_pixelproc_device)
    (pad : Nat) (fi0 : v4l2_fract) :
    Int × dcmipp_pixelproc_device × v4l2_fract :=
  if s.streaming = true then
    (-EBUSY, s, fi0)
  else
    let fi := if fi0.numerator = 0 ∨ fi0.denominator = 0 then s.sink_interval
              else fi0
    if pad = 0 then
      (0, { s with frate := 0, sink_interval := fi, src_interval := fi }, fi)
    else
      let ratio := s.sink_interval.denominator * fi.numerator /
                   (s.sink_interval.numerator * fi.denominator)
      let fr := if ratio ≥ 8 then 3
                else if ratio ≥ 4 then 2
                else if ratio ≥ 2 then 1
                else 0
      let mult := dcmipp_frates.getD fr 1
      (0,
       { s with
         frate := fr
         src_interval := ⟨s.sink_interval.numerator * mult,
                          s.sink_interval.denominator⟩ }, fi)

/-- The decimation loop of dcmipp_pixelproc_set_downscale (lines 697-705):
starting from the crop dimension, halve (truncating) while the compose
dimension times DCMIPP_MAX_DOWNSIZE_RATIO = 8 is still exceeded, counting
the halvings.  Returns (dec counter, post-decimation dimension). -/
def decimate (c post : Nat) : Nat × Nat :=
  if h : c * 8 < post then
    let r := decimate c (post / 2)
    (r.1 + 1, r.2)
  else
    (0, post)
termination_by post
decreasing_by exact Nat.div_lt_self (by omega) (by omega)

/-- The register fields computed by dcmipp_pixelproc_set_downscale. -/
structure DownscalePlan where
  hdec : Nat
  vdec : Nat
  hratio : Nat
  vratio : Nat
  hdiv : Nat
  vdiv : Nat
deriving DecidableEq, Repr

/-- DCMIPP_PIXELPROC_HVRATIO_CONS and friends (lines 685-688). -/
def DCMIPP_PIXELPROC_HVRATIO_CONS : Nat := 8192

def DCMIPP_PIXELPROC_HVRATIO_MAX : Nat := 65535

def DCMIPP_PIXELPROC_HVDIV_CONS : Nat := 1024

def DCMIPP_PIXELPROC_HVDIV_MAX : Nat := 1023

/-- The arithmetic of dcmipp_pixelproc_set_downscale (lines 689-723): the
decimation loops followed by the ratio and divider computations with
their clamps.  The register writes the C function then issues go to the
external register bus and carry exactly these fields. -/
def dcmipp_pixelproc_set_downscale_plan (cropv composev : v4l2_rect) :
    DownscalePlan :=
  let hd := decimate composev.width cropv.width
  let vd := decimate composev.height cropv.height
  let hdec := hd.1
  let h_post_dec := hd.2
  let vdec := vd.1
  let v_post_dec := vd.2
  let hratio0 := h_post_dec * DCMIPP_PIXELPROC_HVRATIO_CONS / composev.width
  let hratio := if hratio0 > DCMIPP_PIXELPROC_HVRATIO_MAX then
                  DCMIPP_PIXELPROC_HVRATIO_MAX else hratio0
  let vratio0 := v_post_dec * DCMIPP_PIXELPROC_HVRATIO_CONS / composev.height
  let vratio := if vratio0 > DCMIPP_PIXELPROC_HVRATIO_MAX then
                  DCMIPP_PIXELPROC_HVRATIO_MAX else vratio0
  let hdiv0 := DCMIPP_PIXELPROC_HVDIV_CONS * composev.width / h_post_dec
  let hdiv := if hdiv0 > DCMIPP_PIXELPROC_HVDIV_MAX then
                DCMIPP_PIXELPROC_HVDIV_MAX else hdiv0
  let vdiv0 := DCMIPP_PIXELPROC_HVDIV_CONS * composev.height / v_post_dec
  let vdiv := if vdiv0 > DCMIPP_PIXELPROC_HVDIV_MAX then
                DCMIPP_PIXELPROC_HVDIV_MAX else vdiv0
  ⟨hdec, vdec, hratio, vratio, hdiv, vdiv⟩

/-- dcmipp_pixelproc_s_stream (lines 831-885), restricted to its effect on
the negotiation state and its return code.  All register programming
(framerate, crop, downscale, color conversion, pixel packer) goes to the
external register bus; the function never writes any field of the state,
in particular it never assigns the streaming flag.  The return value of
the external color-conversion collaborator (consulted only when pipe_id
is 1) is passed in as cc_ret, and the return of the control-handler
re-application as ctrl_ret; enable = false returns 0 immediately. -/
def dcmipp_pixelproc_s_stream (s : dcmipp_pixelproc_device) (enable : Bool)
    (cc_ret ctrl_ret : Int) : Int × dcmipp_pixelproc_device :=
  if enable = false then
    (0, s)
  else if s.pipe_id = 1 ∧ cc_ret ≠ 0 then
    (cc_ret, s)
  else
    match dcmipp_pixelproc_pix_map_by_code s.src_fmt.code 1 with
    | none => (-EINVAL, s)
    | some _ => (ctrl_ret, s)

/-- A pipe state with the streaming flag raised: the Streaming state the
design document describes, used as a concrete input when checking the
streaming-lock behaviour of the operations. -/
def pixelproc_streaming_on : dcmipp_pixelproc_device :=
  { dcmipp_pixelproc_init 1 with streaming := true }

/-- Concrete negotiation scenario, first step: from the default state,
store a 16x16 crop through the Crop target (16 is the minimal crop size,
and 16 / 64 truncates to 0 in the compose clamp). -/
def c5_state1 : dcmipp_pixelproc_device :=
  (dcmipp_pixelproc_set_selection (dcmipp_pixelproc_init 1) Which.active 0
     V4L2_SEL_TGT_CROP ⟨0, 0, 16, 16⟩).2.1

/-- Concrete negotiation scenario, second step: request a 0x0 compose
rectangle on top of the 16x16 crop. -/
def c5_state2 : dcmipp_pixelproc_device :=
  (dcmipp_pixelproc_set_selection c5_state1 Which.active 0
     V4L2_SEL_TGT_COMPOSE ⟨0, 0, 0, 0⟩).2.1

/-- A sink-format request carrying the YUV sink code, used to exercise the
sink-to-source propagation at a concrete input. -/
def c7_sink_request : v4l2_mbus_framefmt :=
  { fmt_default with code := MEDIA_BUS_FMT_YUV8_1X24, width := 320, height := 240 }

/-- A source-format request with a source-catalog YUV code different from
the forced one, used to check that a subsequent source set stores it
as-is. -/
def c7_src_request : v4l2_mbus_framefmt :=
  { fmt_default with code := MEDIA_BUS_FMT_YVYU8_2X8 }

/-- A sink-format request resized to 320x240 with the default sink code. -/
def c8_sink_request : v4l2_mbus_framefmt :=
  { fmt_default with width := 320, height := 240 }

/-- The decimation loop leaves the post-decimation dimension positive
whenever the compose dimension and the starting dimension are positive:
an iteration only runs while the dimension still exceeds 8 times the
compose dimension, so it never halves below 4. -/
theorem decimate_snd_pos (c : Nat) (hc : 0 < c) :
    ∀ p, 0 < p → 0 < (decimate c p).2 := by
  intro p
  induction p using Nat.strong_induction_on with
  | _ p ih =>
    intro hp
    rw [decimate]
    split
    case isTrue h =>
      exact ih (p / 2) (Nat.div_lt_self hp (by omega)) (by omega)
    case isFalse h =>
      simpa using hp

/-- The decimation counter is at most k when the starting dimension is at
most 8 * c * 2 ^ k: each iteration halves the dimension, and the loop
cannot start once the dimension is at or below 8 * c. -/
theorem decimate_fst_le (c : Nat) :
    ∀ k p, p ≤ c * 8 * 2 ^ k → (decimate c p).1 ≤ k := by
  intro k
  induction k with
  | zero =>
    intro p hp
    rw [pow_zero, mul_one] at hp
    rw [decimate]
    split
    case isTrue h => omega
    case isFalse h => simp
  | succ k ih =>
    intro p hp
    rw [decimate]
    split
    case isTrue h =>
      have hstep : c * 8 * 2 ^ (k + 1) = c * 8 * 2 ^ k * 2 := by ring
      have h2 : p / 2 ≤ c * 8 * 2 ^ k := by
        have hd : p / 2 ≤ c * 8 * 2 ^ (k + 1) / 2 := Nat.div_le_div_right hp
        rw [hstep, Nat.mul_div_cancel _ (by norm_num)] at hd
        exact hd
      have := ih (p / 2) h2
      simpa using Nat.succ_le_succ this
    case isFalse h => simp

/-- Claim C1: the claim says a successful start-streaming call switches
the streaming flag to true and stop-streaming switches it back to false.
The code never assigns the flag at all: s_stream returns the state
unchanged on every path, so after a successful enable the flag is still
false (the struct declares the flag and two operations check it, so the
absent assignment is a slip in the code, not intent). -/
theorem c1_s_stream_never_sets_streaming :
    (∀ (s : dcmipp_pixelproc_device) (enable : Bool) (cc_ret ctrl_ret : Int),
        (dcmipp_pixelproc_s_stream s enable cc_ret ctrl_ret).2 = s) ∧
    (dcmipp_pixelproc_s_stream (dcmipp_pixelproc_init 1) true 0 0).1 = 0 ∧
    (dcmipp_pixelproc_s_stream (dcmipp_pixelproc_init 1) true 0 0).2.streaming = false ∧
    (dcmipp_pixelproc_s_stream (dcmipp_pixelproc_init 1) false 0 0).2.streaming = false := by
  refine ⟨?_, by decide, by decide, by decide⟩
  intro s enable cc_ret ctrl_ret
  unfold dcmipp_pixelproc_s_stream
  split
  · rfl
  · split
    · rfl
    · cases dcmipp_pixelproc_pix_map_by_code s.src_fmt.code 1 <;> rfl

/-- Claim C2 (counterexample): on a state with the streaming flag raised,
set_selection with which = active on the Compose target does not return
Busy: it returns 0 and overwrites the stored compose rectangle, refuting
the claim that every active-state mutation fails with Busy while
streaming. -/
theorem c2_set_selection_ignores_streaming_cex :
    (dcmipp_pixelproc_set_selection pixelproc_streaming_on
        Which.active 0 V4L2_SEL_TGT_COMPOSE ⟨0, 0, 320, 240⟩).1 = 0 ∧
    (dcmipp_pixelproc_set_selection pixelproc_streaming_on
        Which.active 0 V4L2_SEL_TGT_COMPOSE ⟨0, 0, 320, 240⟩).1 ≠ -EBUSY ∧
    (dcmipp_pixelproc_set_selection pixelproc_streaming_on
        Which.active 0 V4L2_SEL_TGT_COMPOSE ⟨0, 0, 320, 240⟩).2.1.compose =
      ⟨0, 0, 320, 240⟩ ∧
    pixelproc_streaming_on.compose = ⟨0, 0, 640, 480⟩ := by
  decide

/-- Claim C2 (amended): while the streaming flag is raised, set_fmt with
which = active and s_frame_interval fail with Busy on either pad, but
set_selection performs no streaming check: with which = active on the
Crop or Compose target it succeeds (returns 0) and stores the clamped
rectangle, and with which = proposed it succeeds as well. -/
theorem c2_amended_streaming_lock (s : dcmipp_pixelproc_device)
    (pad : Nat) (f : v4l2_mbus_framefmt) (fi : v4l2_fract) (r : v4l2_rect)
    (h : s.streaming = true) :
    (dcmipp_pixelproc_set_fmt s Which.active pad f).1 = -EBUSY ∧
    (dcmipp_pixelproc_s_frame_interval s pad fi).1 = -EBUSY ∧
    (dcmipp_pixelproc_set_selection s Which.active 0 V4L2_SEL_TGT_CROP r).1 = 0 ∧
    (dcmipp_pixelproc_set_selection s Which.active 0 V4L2_SEL_TGT_COMPOSE r).1 = 0 ∧
    (dcmipp_pixelproc_set_selection s Which.active 0 V4L2_SEL_TGT_COMPOSE r).2.1.compose =
      dcmipp_pixelproc_clamp_compose s.crop r ∧
    (dcmipp_pixelproc_set_selection s Which.proposed 0 V4L2_SEL_TGT_CROP r).1 = 0 ∧
    (dcmipp_pixelproc_set_selection s Which.proposed 0 V4L2_SEL_TGT_COMPOSE r).1 = 0 := by
  simp [dcmipp_pixelproc_set_fmt, dcmipp_pixelproc_s_frame_interval,
        dcmipp_pixelproc_set_selection, h, setComposeOf, setSrcSizeOf, setSrcFmtOf,
        cropOf, V4L2_SEL_TGT_CROP, V4L2_SEL_TGT_COMPOSE]

/-- Witness for the amended C2 theorem at the concrete streaming state. -/
theorem c2_amended_streaming_lock_witness :
    pixelproc_streaming_on.streaming = true ∧
    ((dcmipp_pixelproc_set_fmt pixelproc_streaming_on Which.active 0 fmt_default).1 = -EBUSY ∧
     (dcmipp_pixelproc_s_frame_interval pixelproc_streaming_on 0 ⟨1, 30⟩).1 = -EBUSY ∧
     (dcmipp_pixelproc_set_selection pixelproc_streaming_on Which.active 0
        V4L2_SEL_TGT_CROP ⟨0, 0, 100, 100⟩).1 = 0 ∧
     (dcmipp_pixelproc_set_selection pixelproc_streaming_on Which.active 0
        V4L2_SEL_TGT_COMPOSE ⟨0, 0, 100, 100⟩).1 = 0 ∧
     (dcmipp_pixelproc_set_selection pixelproc_streaming_on Which.active 0
        V4L2_SEL_TGT_COMPOSE ⟨0, 0, 100, 100⟩).2.1.compose =
       dcmipp_pixelproc_clamp_compose pixelproc_streaming_on.crop ⟨0, 0, 100, 100⟩ ∧
     (dcmipp_pixelproc_set_selection pixelproc_streaming_on Which.proposed 0
        V4L2_SEL_TGT_CROP ⟨0, 0, 100, 100⟩).1 = 0 ∧
     (dcmipp_pixelproc_set_selection pixelproc_streaming_on Which.proposed 0
        V4L2_SEL_TGT_COMPOSE ⟨0, 0, 100, 100⟩).1 = 0) :=
  ⟨rfl, c2_amended_streaming_lock pixelproc_streaming_on 0 fmt_default ⟨1, 30⟩
     ⟨0, 0, 100, 100⟩ rfl⟩

/-- Claim C3 (counterexample): the identity plan on a 640x480 crop and
compose computes hdiv = 1024 * 640 / 640 = 1024 and then clamps it to the
10-bit maximum 1023, so the claimed hdiv = vdiv = 1024 does not hold. -/
theorem c3_identity_plan_hdiv_cex :
    (dcmipp_pixelproc_set_downscale_plan ⟨0, 0, 640, 480⟩ ⟨0, 0, 640, 480⟩).hdiv = 1023 ∧
    ¬ ((dcmipp_pixelproc_set_downscale_plan ⟨0, 0, 640, 480⟩ ⟨0, 0, 640, 480⟩).hdiv = 1024 ∧
       (dcmipp_pixelproc_set_downscale_plan ⟨0, 0, 640, 480⟩ ⟨0, 0, 640, 480⟩).vdiv = 1024) := by
  have h1 : decimate 640 640 = (0, 640) := by simp [decimate]
  have h2 : decimate 480 480 = (0, 480) := by simp [decimate]
  constructor <;>
    simp [dcmipp_pixelproc_set_downscale_plan, h1, h2,
          DCMIPP_PIXELPROC_HVRATIO_CONS, DCMIPP_PIXELPROC_HVRATIO_MAX,
          DCMIPP_PIXELPROC_HVDIV_CONS, DCMIPP_PIXELPROC_HVDIV_MAX]

/-- Claim C3 (amended): the planner applied to crop size 640x480 and
compose size 640x480 produces hdec = vdec = 0, hratio = vratio = 8192 and
hdiv = vdiv = 1023 (the unclamped quotient 1024 is clamped to the 10-bit
maximum 1023). -/
theorem c3_amended_identity_plan :
    dcmipp_pixelproc_set_downscale_plan ⟨0, 0, 640, 480⟩ ⟨0, 0, 640, 480⟩ =
      ⟨0, 0, 8192, 8192, 1023, 1023⟩ := by
  have h1 : decimate 640 640 = (0, 640) := by simp [decimate]
  have h2 : decimate 480 480 = (0, 480) := by simp [decimate]
  simp [dcmipp_pixelproc_set_downscale_plan, h1, h2,
        DCMIPP_PIXELPROC_HVRATIO_CONS, DCMIPP_PIXELPROC_HVRATIO_MAX,
        DCMIPP_PIXELPROC_HVDIV_CONS, DCMIPP_PIXELPROC_HVDIV_MAX]

/-- Claim C4 (counterexample): with sink interval 1/30, requesting source
interval 1/240 gives ratio = (30 * 1) / (1 * 240) = 0 under truncating
division, hence frame-skip code 0 and achieved interval 1/30, not the
claimed code 3 with 8/30. -/
theorem c4_fast_request_cex :
    (dcmipp_pixelproc_s_frame_interval (dcmipp_pixelproc_init 1) 1 ⟨1, 240⟩).2.1.frate = 0 ∧
    (dcmipp_pixelproc_s_frame_interval (dcmipp_pixelproc_init 1) 1 ⟨1, 240⟩).2.1.src_interval =
      ⟨1, 30⟩ ∧
    ¬ ((dcmipp_pixelproc_s_frame_interval (dcmipp_pixelproc_init 1) 1 ⟨1, 240⟩).2.1.frate = 3 ∧
       (dcmipp_pixelproc_s_frame_interval (dcmipp_pixelproc_init 1) 1
          ⟨1, 240⟩).2.1.src_interval = ⟨8, 30⟩) := by
  decide

/-- Claim C4 (amended): with sink interval 1/30, requesting source
interval 1/30 yields code 0 with achieved 1/30; requesting 8/30 (an 8
times longer interval) yields code 3 with achieved 8/30; requesting 1/240
(a shorter interval, ratio truncates to 0) yields code 0 with achieved
1/30. -/
theorem c4_amended_frame_interval :
    ((dcmipp_pixelproc_s_frame_interval (dcmipp_pixelproc_init 1) 1 ⟨1, 30⟩).2.1.frate = 0 ∧
     (dcmipp_pixelproc_s_frame_interval (dcmipp_pixelproc_init 1) 1 ⟨1, 30⟩).2.1.src_interval =
       ⟨1, 30⟩) ∧
    ((dcmipp_pixelproc_s_frame_interval (dcmipp_pixelproc_init 1) 1 ⟨8, 30⟩).2.1.frate = 3 ∧
     (dcmipp_pixelproc_s_frame_interval (dcmipp_pixelproc_init 1) 1 ⟨8, 30⟩).2.1.src_interval =
       ⟨8, 30⟩) ∧
    ((dcmipp_pixelproc_s_frame_interval (dcmipp_pixelproc_init 1) 1 ⟨1, 240⟩).2.1.frate = 0 ∧
     (dcmipp_pixelproc_s_frame_interval (dcmipp_pixelproc_init 1) 1
        ⟨1, 240⟩).2.1.src_interval = ⟨1, 30⟩) := by
  decide

/-- Claim C5 (counterexample): the Compose-target clamp can store a zero
compose dimension.  From the default state, store the minimal 16x16 crop;
then a 0x0 compose request survives the clamp because 0 is not strictly
below 16 / 64 = 0, so the stored compose has width = height = 0, and the
decimation loop run on that compose drives the post-decimation size to 0
as well: the divisors of the planner are not all nonzero. -/
theorem c5_zero_compose_cex :
    (dcmipp_pixelproc_set_selection (dcmipp_pixelproc_init 1) Which.active 0
       V4L2_SEL_TGT_CROP ⟨0, 0, 16, 16⟩).1 = 0 ∧
    (dcmipp_pixelproc_set_selection c5_state1 Which.active 0
       V4L2_SEL_TGT_COMPOSE ⟨0, 0, 0, 0⟩).1 = 0 ∧
    c5_state2.crop.width = 16 ∧
    c5_state2.compose.width = 0 ∧
    c5_state2.compose.height = 0 ∧
    (decimate c5_state2.compose.width c5_state2.crop.width).2 = 0 := by
  refine ⟨by decide, by decide, by decide, by decide, by decide, ?_⟩
  have h1 : c5_state2.compose.width = 0 := by decide
  have h2 : c5_state2.crop.width = 16 := by decide
  rw [h1, h2]
  simp [decimate]

/-- Claim C5 (amended): whenever the stored crop is at least 64 in both
dimensions (so that crop / 64 is at least 1), every compose rectangle
produced by the Compose-target clamp has nonzero width and height, and
the post-decimation sizes the planner divides by are nonzero as well. -/
theorem c5_amended_divisors_pos (cropv r : v4l2_rect)
    (hw : 64 ≤ cropv.width) (hh : 64 ≤ cropv.height) :
    0 < (dcmipp_pixelproc_clamp_compose cropv r).width ∧
    0 < (dcmipp_pixelproc_clamp_compose cropv r).height ∧
    0 < (decimate (dcmipp_pixelproc_clamp_compose cropv r).width cropv.width).2 ∧
    0 < (decimate (dcmipp_pixelproc_clamp_compose cropv r).height cropv.height).2 := by
  have hqw : 1 ≤ cropv.width / 64 := (Nat.one_le_div_iff (by norm_num)).mpr hw
  have hqh : 1 ≤ cropv.height / 64 := (Nat.one_le_div_iff (by norm_num)).mpr hh
  have hw1 : 0 < (dcmipp_pixelproc_clamp_compose cropv r).width := by
    simp only [dcmipp_pixelproc_clamp_compose]
    split_ifs <;> omega
  have hh1 : 0 < (dcmipp_pixelproc_clamp_compose cropv r).height := by
    simp only [dcmipp_pixelproc_clamp_compose]
    split_ifs <;> omega
  exact ⟨hw1, hh1,
    decimate_snd_pos _ hw1 cropv.width (by omega),
    decimate_snd_pos _ hh1 cropv.height (by omega)⟩

/-- Witness for the amended C5 theorem: a 640x480 crop with a 0x0 compose
request, whose clamped compose is 10x7 (640 / 64 by 480 / 64). -/
theorem c5_amended_divisors_pos_witness :
    (64 ≤ (640 : Nat) ∧ 64 ≤ (480 : Nat)) ∧
    (0 < (dcmipp_pixelproc_clamp_compose ⟨0, 0, 640, 480⟩ ⟨0, 0, 0, 0⟩).width ∧
     0 < (dcmipp_pixelproc_clamp_compose ⟨0, 0, 640, 480⟩ ⟨0, 0, 0, 0⟩).height ∧
     0 < (decimate (dcmipp_pixelproc_clamp_compose ⟨0, 0, 640, 480⟩ ⟨0, 0, 0, 0⟩).width
            640).2 ∧
     0 < (decimate (dcmipp_pixelproc_clamp_compose ⟨0, 0, 640, 480⟩ ⟨0, 0, 0, 0⟩).height
            480).2) :=
  ⟨by decide, c5_amended_divisors_pos ⟨0, 0, 640, 480⟩ ⟨0, 0, 0, 0⟩ (by decide) (by decide)⟩

/-- Claim C6 (counterexample): crop width 127 with compose width 1
satisfies the claimed hypothesis compose.w in [crop.w / 64, crop.w] under
truncating division (127 / 64 = 1), yet the decimation loop halves
127 to 63, 31, 15 and 7 before 1 * 8 is no longer exceeded, giving
hdec = 4, above the claimed bound of 3. -/
theorem c6_hdec_exceeds_limit_cex :
    (127 : Nat) / 64 ≤ 1 ∧ (1 : Nat) ≤ 127 ∧
    (dcmipp_pixelproc_set_downscale_plan ⟨0, 0, 127, 480⟩ ⟨0, 0, 1, 480⟩).hdec = 4 ∧
    ¬ (dcmipp_pixelproc_set_downscale_plan ⟨0, 0, 127, 480⟩ ⟨0, 0, 1, 480⟩).hdec ≤ 3 := by
  have h1 : decimate 1 127 = (4, 7) := by simp [decimate]
  have h2 : decimate 480 480 = (0, 480) := by simp [decimate]
  refine ⟨by norm_num, by norm_num, ?_, ?_⟩ <;>
    simp [dcmipp_pixelproc_set_downscale_plan, h1, h2,
          DCMIPP_PIXELPROC_HVRATIO_CONS, DCMIPP_PIXELPROC_HVRATIO_MAX,
          DCMIPP_PIXELPROC_HVDIV_CONS, DCMIPP_PIXELPROC_HVDIV_MAX]

/-- Claim C6 (amended): for every crop and compose size with
crop.w ≤ 64 * compose.w and compose.w ≤ crop.w (the exact rational
reading of compose ≥ crop / 64, and symmetrically for the height), the
planner produces hdec ≤ 3 and vdec ≤ 3, hratio and vratio at most 65535,
and hdiv and vdiv at most 1023. -/
theorem c6_amended_plan_bounds (cropv composev : v4l2_rect)
    (hw : cropv.width ≤ 64 * composev.width)
    (hh : cropv.height ≤ 64 * composev.height)
    (_hw2 : composev.width ≤ cropv.width)
    (_hh2 : composev.height ≤ cropv.height) :
    (dcmipp_pixelproc_set_downscale_plan cropv composev).hdec ≤ 3 ∧
    (dcmipp_pixelproc_set_downscale_plan cropv composev).vdec ≤ 3 ∧
    (dcmipp_pixelproc_set_downscale_plan cropv composev).hratio ≤ 65535 ∧
    (dcmipp_pixelproc_set_downscale_plan cropv composev).vratio ≤ 65535 ∧
    (dcmipp_pixelproc_set_downscale_plan cropv composev).hdiv ≤ 1023 ∧
    (dcmipp_pixelproc_set_downscale_plan cropv composev).vdiv ≤ 1023 := by
  have hbw : cropv.width ≤ composev.width * 8 * 2 ^ 3 := by
    have : composev.width * 8 * 2 ^ 3 = 64 * composev.width := by ring
    omega
  have hbh : cropv.height ≤ composev.height * 8 * 2 ^ 3 := by
    have : composev.height * 8 * 2 ^ 3 = 64 * composev.height := by ring
    omega
  have h1 : (decimate composev.width cropv.width).1 ≤ 3 :=
    decimate_fst_le _ 3 _ hbw
  have h2 : (decimate composev.height cropv.height).1 ≤ 3 :=
    decimate_fst_le _ 3 _ hbh
  simp only [dcmipp_pixelproc_set_downscale_plan,
             DCMIPP_PIXELPROC_HVRATIO_MAX, DCMIPP_PIXELPROC_HVDIV_MAX]
  refine ⟨h1, h2, ?_, ?_, ?_, ?_⟩ <;> split_ifs <;> omega

/-- Witness for the amended C6 theorem: crop 640x480 with compose 80x60,
an 8x downscale inside the allowed band. -/
theorem c6_amended_plan_bounds_witness :
    ((640 : Nat) ≤ 64 * 80 ∧ (480 : Nat) ≤ 64 * 60 ∧
     (80 : Nat) ≤ 640 ∧ (60 : Nat) ≤ 480) ∧
    ((dcmipp_pixelproc_set_downscale_plan ⟨0, 0, 640, 480⟩ ⟨0, 0, 80, 60⟩).hdec ≤ 3 ∧
     (dcmipp_pixelproc_set_downscale_plan ⟨0, 0, 640, 480⟩ ⟨0, 0, 80, 60⟩).vdec ≤ 3 ∧
     (dcmipp_pixelproc_set_downscale_plan ⟨0, 0, 640, 480⟩ ⟨0, 0, 80, 60⟩).hratio ≤ 65535 ∧
     (dcmipp_pixelproc_set_downscale_plan ⟨0, 0, 640, 480⟩ ⟨0, 0, 80, 60⟩).vratio ≤ 65535 ∧
     (dcmipp_pixelproc_set_downscale_plan ⟨0, 0, 640, 480⟩ ⟨0, 0, 80, 60⟩).hdiv ≤ 1023 ∧
     (dcmipp_pixelproc_set_downscale_plan ⟨0, 0, 640, 480⟩ ⟨0, 0, 80, 60⟩).vdiv ≤ 1023) :=
  ⟨by decide, c6_amended_plan_bounds ⟨0, 0, 640, 480⟩ ⟨0, 0, 80, 60⟩
     (by decide) (by decide) (by decide) (by decide)⟩

/-- Claim C7: every successful set_fmt on the Sink pad overwrites the
Source format of the same which with the clamped sink format (same width,
height, field order and colorimetry), its code forced to YUYV8_2X8 when
the clamped sink code lies in [Y8_1X8, SBGGR8_1X8) and to RGB565_2X8_LE
otherwise; a subsequent set_fmt on the Source pad stores the clamped
requested format as-is (no re-propagation) and leaves the sink format of
that which untouched. -/
theorem c7_sink_propagation (s : dcmipp_pixelproc_device) (which : Which)
    (f g : v4l2_mbus_framefmt)
    (h : (dcmipp_pixelproc_set_fmt s which 0 f).1 = 0) :
    srcFmtOf (dcmipp_pixelproc_set_fmt s which 0 f).2.1 which =
      { dcmipp_pixelproc_adjust_fmt f 0 with
        code := if MEDIA_BUS_FMT_Y8_1X8 ≤ (dcmipp_pixelproc_adjust_fmt f 0).code ∧
                   (dcmipp_pixelproc_adjust_fmt f 0).code < MEDIA_BUS_FMT_SBGGR8_1X8 then
                  MEDIA_BUS_FMT_YUYV8_2X8
                else MEDIA_BUS_FMT_RGB565_2X8_LE } ∧
    (dcmipp_pixelproc_set_fmt (dcmipp_pixelproc_set_fmt s which 0 f).2.1 which 1 g).1 = 0 ∧
    srcFmtOf (dcmipp_pixelproc_set_fmt
        (dcmipp_pixelproc_set_fmt s which 0 f).2.1 which 1 g).2.1 which =
      dcmipp_pixelproc_adjust_fmt g 1 ∧
    sinkFmtOf (dcmipp_pixelproc_set_fmt
        (dcmipp_pixelproc_set_fmt s which 0 f).2.1 which 1 g).2.1 which =
      sinkFmtOf (dcmipp_pixelproc_set_fmt s which 0 f).2.1 which := by
  cases which
  case active =>
    by_cases hs : s.streaming = true
    · simp [dcmipp_pixelproc_set_fmt, hs, EBUSY] at h
    · simp [dcmipp_pixelproc_set_fmt, hs, setSrcFmtOf, setSinkFmtOf, srcFmtOf, sinkFmtOf]
  case proposed =>
    simp [dcmipp_pixelproc_set_fmt, setSrcFmtOf, setSinkFmtOf, srcFmtOf, sinkFmtOf]

/-- Witness for the C7 theorem: from the default state, set the sink
format to a 320x240 YUV8_1X24 request (forcing YUYV8_2X8 on the source),
then set the source format to a YVYU8_2X8 request. -/
theorem c7_sink_propagation_witness :
    (dcmipp_pixelproc_set_fmt (dcmipp_pixelproc_init 1) Which.active 0 c7_sink_request).1 = 0 ∧
    (srcFmtOf (dcmipp_pixelproc_set_fmt (dcmipp_pixelproc_init 1) Which.active 0
         c7_sink_request).2.1 Which.active =
       { dcmipp_pixelproc_adjust_fmt c7_sink_request 0 with
         code := if MEDIA_BUS_FMT_Y8_1X8 ≤
                      (dcmipp_pixelproc_adjust_fmt c7_sink_request 0).code ∧
                    (dcmipp_pixelproc_adjust_fmt c7_sink_request 0).code <
                      MEDIA_BUS_FMT_SBGGR8_1X8 then
                   MEDIA_BUS_FMT_YUYV8_2X8
                 else MEDIA_BUS_FMT_RGB565_2X8_LE } ∧
     (dcmipp_pixelproc_set_fmt
        (dcmipp_pixelproc_set_fmt (dcmipp_pixelproc_init 1) Which.active 0
           c7_sink_request).2.1 Which.active 1 c7_src_request).1 = 0 ∧
     srcFmtOf (dcmipp_pixelproc_set_fmt
        (dcmipp_pixelproc_set_fmt (dcmipp_pixelproc_init 1) Which.active 0
           c7_sink_request).2.1 Which.active 1 c7_src_request).2.1 Which.active =
       dcmipp_pixelproc_adjust_fmt c7_src_request 1 ∧
     sinkFmtOf (dcmipp_pixelproc_set_fmt
        (dcmipp_pixelproc_set_fmt (dcmipp_pixelproc_init 1) Which.active 0
           c7_sink_request).2.1 Which.active 1 c7_src_request).2.1 Which.active =
       sinkFmtOf (dcmipp_pixelproc_set_fmt (dcmipp_pixelproc_init 1) Which.active 0
           c7_sink_request).2.1 Which.active) :=
  ⟨by decide, c7_sink_propagation (dcmipp_pixelproc_init 1) Which.active
     c7_sink_request c7_src_request (by decide)⟩

/-- Claim C8: every successful set_fmt on the Sink pad with which = active
resets both the active Crop and the active Compose to the full-frame
rectangle of the clamped sink format, while a set_fmt on the Sink pad
with which = proposed leaves the active crop and compose unchanged. -/
theorem c8_active_sink_set_resets_crop_compose (s : dcmipp_pixelproc_device)
    (f g : v4l2_mbus_framefmt)
    (h : (dcmipp_pixelproc_set_fmt s Which.active 0 f).1 = 0) :
    (dcmipp_pixelproc_set_fmt s Which.active 0 f).2.1.crop =
      ⟨0, 0, (dcmipp_pixelproc_adjust_fmt f 0).width,
       (dcmipp_pixelproc_adjust_fmt f 0).height⟩ ∧
    (dcmipp_pixelproc_set_fmt s Which.active 0 f).2.1.compose =
      ⟨0, 0, (dcmipp_pixelproc_adjust_fmt f 0).width,
       (dcmipp_pixelproc_adjust_fmt f 0).height⟩ ∧
    (dcmipp_pixelproc_set_fmt s Which.proposed 0 g).2.1.crop = s.crop ∧
    (dcmipp_pixelproc_set_fmt s Which.proposed 0 g).2.1.compose = s.compose := by
  by_cases hs : s.streaming = true
  · simp [dcmipp_pixelproc_set_fmt, hs, EBUSY] at h
  · simp [dcmipp_pixelproc_set_fmt, hs, setSrcFmtOf, setSinkFmtOf]

/-- Witness for the C8 theorem: a 320x240 sink request on the default
state. -/
theorem c8_active_sink_set_resets_crop_compose_witness :
    (dcmipp_pixelproc_set_fmt (dcmipp_pixelproc_init 1) Which.active 0 c8_sink_request).1 = 0 ∧
    ((dcmipp_pixelproc_set_fmt (dcmipp_pixelproc_init 1) Which.active 0
        c8_sink_request).2.1.crop =
       ⟨0, 0, (dcmipp_pixelproc_adjust_fmt c8_sink_request 0).width,
        (dcmipp_pixelproc_adjust_fmt c8_sink_request 0).height⟩ ∧
     (dcmipp_pixelproc_set_fmt (dcmipp_pixelproc_init 1) Which.active 0
        c8_sink_request).2.1.compose =
       ⟨0, 0, (dcmipp_pixelproc_adjust_fmt c8_sink_request 0).width,
        (dcmipp_pixelproc_adjust_fmt c8_sink_request 0).height⟩ ∧
     (dcmipp_pixelproc_set_fmt (dcmipp_pixelproc_init 1) Which.proposed 0
        fmt_default).2.1.crop = (dcmipp_pixelproc_init 1).crop ∧
     (dcmipp_pixelproc_set_fmt (dcmipp_pixelproc_init 1) Which.proposed 0
        fmt_default).2.1.compose = (dcmipp_pixelproc_init 1).compose) :=
  ⟨by decide, c8_active_sink_set_resets_crop_compose (dcmipp_pixelproc_init 1)
     c8_sink_request fmt_default (by decide)⟩

/-- Claim C9: setting the sink frame interval while not streaming succeeds,
resets the frame-skip code to 0 and sets both the sink and the source
interval to the requested interval; a request with zero numerator or
denominator is replaced by the current sink interval first. -/
theorem c9_sink_interval_reset (s : dcmipp_pixelproc_device) (fi : v4l2_fract)
    (h : s.streaming = false) :
    (dcmipp_pixelproc_s_frame_interval s 0 fi).1 = 0 ∧
    (dcmipp_pixelproc_s_frame_interval s 0 fi).2.1.frate = 0 ∧
    (dcmipp_pixelproc_s_frame_interval s 0 fi).2.1.sink_interval =
      (if fi.numerator = 0 ∨ fi.denominator = 0 then s.sink_interval else fi) ∧
    (dcmipp_pixelproc_s_frame_interval s 0 fi).2.1.src_interval =
      (if fi.numerator = 0 ∨ fi.denominator = 0 then s.sink_interval else fi) := by
  simp [dcmipp_pixelproc_s_frame_interval, h]

/-- Witness for the C9 theorem: a request with zero numerator on the
default state, exercising the fallback to the current sink interval. -/
theorem c9_sink_interval_reset_witness :
    (dcmipp_pixelproc_init 1).streaming = false ∧
    ((dcmipp_pixelproc_s_frame_interval (dcmipp_pixelproc_init 1) 0 ⟨0, 5⟩).1 = 0 ∧
     (dcmipp_pixelproc_s_frame_interval (dcmipp_pixelproc_init 1) 0 ⟨0, 5⟩).2.1.frate = 0 ∧
     (dcmipp_pixelproc_s_frame_interval (dcmipp_pixelproc_init 1) 0
        ⟨0, 5⟩).2.1.sink_interval =
       (if (⟨0, 5⟩ : v4l2_fract).numerator = 0 ∨ (⟨0, 5⟩ : v4l2_fract).denominator = 0 then
          (dcmipp_pixelproc_init 1).sink_interval else ⟨0, 5⟩) ∧
     (dcmipp_pixelproc_s_frame_interval (dcmipp_pixelproc_init 1) 0
        ⟨0, 5⟩).2.1.src_interval =
       (if (⟨0, 5⟩ : v4l2_fract).numerator = 0 ∨ (⟨0, 5⟩ : v4l2_fract).denominator = 0 then
          (dcmipp_pixelproc_init 1).sink_interval else ⟨0, 5⟩)) :=
  ⟨rfl, c9_sink_interval_reset (dcmipp_pixelproc_init 1) ⟨0, 5⟩ rfl⟩

/-- Claim C10: set_fmt with which = active on a streaming pipe returns
Busy atomically: the whole call returns -EBUSY with the state completely
unchanged (so sink format, source format, crop and compose are all as
before) and the callers format buffer untouched. -/
theorem c10_set_fmt_busy_atomic (s : dcmipp_pixelproc_device) (pad : Nat)
    (f : v4l2_mbus_framefmt) (h : s.streaming = true) :
    dcmipp_pixelproc_set_fmt s Which.active pad f = (-EBUSY, s, f) := by
  simp [dcmipp_pixelproc_set_fmt, h]

/-- Witness for the C10 theorem at the concrete streaming state. -/
theorem c10_set_fmt_busy_atomic_witness :
    pixelproc_streaming_on.streaming = true ∧
    dcmipp_pixelproc_set_fmt pixelproc_streaming_on Which.active 0 fmt_default =
      (-EBUSY, pixelproc_streaming_on, fmt_default) :=
  ⟨rfl, c10_set_fmt_busy_atomic pixelproc_streaming_on 0 fmt_default rfl⟩
